import Mathlib

/-!
Verification of the ZeroTier core public API (`src/core/zerotier.h`) against
its natural-language specification.

The repository source available here is the C API header.  Constants, enums,
bit layouts and documented contracts are embedded directly from that header.
Operations whose implementations live outside the header (the rules engine,
the certificate store, identity signing, locators, node join) are modelled
from the specification; each such definition carries a doc comment starting
with `Modelled from the spec:`.
-/

namespace ZeroTier

/- ------------------------------------------------------------------ -/

/- Generic encoding helpers used by the models.                        -/

/- ------------------------------------------------------------------ -/

/-- Injective encoding of a list of naturals into one natural, built from
Cantor pairing.  Used by the symbolic cryptography models. -/
def encodeList (xs : List Nat) : Nat :=
  xs.foldr (fun a r => Nat.pair a r + 1) 0

/-- Big-endian encoding of a natural into `k` bytes (the value is taken
modulo `2^(8*k)`). -/
def encodeBE : Nat → Nat → List Nat
  | 0, _ => []
  | k + 1, n => encodeBE k (n / 256) ++ [n % 256]

/-- Big-endian decoding of a byte list back into a natural. -/
def decodeBE (bs : List Nat) : Nat :=
  bs.foldl (fun acc b => acc * 256 + b) 0

/-- Read `k` bytes as a big-endian natural, returning the value and the
remaining bytes. -/
def readBE (k : Nat) (bs : List Nat) : Nat × List Nat :=
  (decodeBE (bs.take k), bs.drop k)

/- ------------------------------------------------------------------ -/

/- Wire-level constants (src/core/zerotier.h).                         -/

/- ------------------------------------------------------------------ -/

/-- Default primary UDP port for devices running a ZeroTier endpoint. -/
def ZT_DEFAULT_PORT : Nat := 9993

/-- Minimum allowed physical UDP MTU (smaller values are clipped to this). -/
def ZT_MIN_UDP_MTU : Nat := 1400

/-- Default UDP payload size NOT including UDP and IP overhead. -/
def ZT_DEFAULT_UDP_MTU : Nat := 1432

/-- Modelled from the spec: the clipping of configured physical MTU values up
to `ZT_MIN_UDP_MTU` ("smaller values are clipped to this"); the code applying
the clip is not under `src/`. -/
def clipPhysMtu (m : Nat) : Nat := max m ZT_MIN_UDP_MTU

/- ------------------------------------------------------------------ -/

/- Result codes (src/core/zerotier.h, enum ZT_ResultCode).             -/

/- ------------------------------------------------------------------ -/

/-- Operation completed normally. -/
def ZT_RESULT_OK : Int := 0

/-- Ran out of memory. -/
def ZT_RESULT_FATAL_ERROR_OUT_OF_MEMORY : Int := 100

/-- Data store is not writable or has failed. -/
def ZT_RESULT_FATAL_ERROR_DATA_STORE_FAILED : Int := 101

/-- Internal error fatal to the instance. -/
def ZT_RESULT_FATAL_ERROR_INTERNAL : Int := 102

/-- Network ID not valid. -/
def ZT_RESULT_ERROR_NETWORK_NOT_FOUND : Int := 1000

/-- The requested operation is not supported on this version or build. -/
def ZT_RESULT_ERROR_UNSUPPORTED_OPERATION : Int := 1001

/-- The requested operation was given a bad parameter. -/
def ZT_RESULT_ERROR_BAD_PARAMETER : Int := 1002

/-- A credential or other object failed a cryptographic integrity check. -/
def ZT_RESULT_ERROR_INVALID_CREDENTIAL : Int := 1003

/-- An object collides with another object in some way. -/
def ZT_RESULT_ERROR_COLLIDING_OBJECT : Int := 1004

/-- An internal error occurred that is not fatal to the whole instance. -/
def ZT_RESULT_ERROR_INTERNAL : Int := 1005

/-- Macro `ZT_ResultCode_isFatal(x)`: `((((int)(x)) >= 100)&&(((int)(x)) < 1000))`. -/
def ZT_ResultCode_isFatal (x : Int) : Bool := (100 ≤ x) && (x < 1000)

/- ------------------------------------------------------------------ -/

/- Rules-table entry types (enum ZT_VirtualNetworkRuleType).           -/

/- ------------------------------------------------------------------ -/

/-- Maximum ID for an ACTION, anything higher is a MATCH. -/
def ZT_NETWORK_RULE_ACTION__MAX_ID : Nat := 15

/-- Maximum ID allowed for a MATCH entry in the rules table. -/
def ZT_NETWORK_RULE_MATCH__MAX_ID : Nat := 63

/-- The type of a virtual network rules table entry, embedded from
`enum ZT_VirtualNetworkRuleType` with the numeric codes of the source
(sentinel `__MAX_ID` members are represented by the constants above). -/
inductive ZT_VirtualNetworkRuleType where
  | ACTION_DROP
  | ACTION_ACCEPT
  | ACTION_TEE
  | ACTION_WATCH
  | ACTION_REDIRECT
  | ACTION_BREAK
  | ACTION_PRIORITY
  | MATCH_SOURCE_ZEROTIER_ADDRESS
  | MATCH_DEST_ZEROTIER_ADDRESS
  | MATCH_VLAN_ID
  | MATCH_VLAN_PCP
  | MATCH_VLAN_DEI
  | MATCH_MAC_SOURCE
  | MATCH_MAC_DEST
  | MATCH_IPV4_SOURCE
  | MATCH_IPV4_DEST
  | MATCH_IPV6_SOURCE
  | MATCH_IPV6_DEST
  | MATCH_IP_TOS
  | MATCH_IP_PROTOCOL
  | MATCH_ETHERTYPE
  | MATCH_ICMP
  | MATCH_IP_SOURCE_PORT_RANGE
  | MATCH_IP_DEST_PORT_RANGE
  | MATCH_CHARACTERISTICS
  | MATCH_FRAME_SIZE_RANGE
  | MATCH_RANDOM
  | MATCH_TAGS_DIFFERENCE
  | MATCH_TAGS_BITWISE_AND
  | MATCH_TAGS_BITWISE_OR
  | MATCH_TAGS_BITWISE_XOR
  | MATCH_TAGS_EQUAL
  | MATCH_TAG_SENDER
  | MATCH_TAG_RECEIVER
  | MATCH_INTEGER_RANGE
deriving DecidableEq

open ZT_VirtualNetworkRuleType in
/-- Numeric code of each rules-table entry type, exactly as assigned in
`enum ZT_VirtualNetworkRuleType`. -/
def ruleTypeCode : ZT_VirtualNetworkRuleType → Nat
  | ACTION_DROP => 0
  | ACTION_ACCEPT => 1
  | ACTION_TEE => 2
  | ACTION_WATCH => 3
  | ACTION_REDIRECT => 4
  | ACTION_BREAK => 5
  | ACTION_PRIORITY => 6
  | MATCH_SOURCE_ZEROTIER_ADDRESS => 24
  | MATCH_DEST_ZEROTIER_ADDRESS => 25
  | MATCH_VLAN_ID => 26
  | MATCH_VLAN_PCP => 27
  | MATCH_VLAN_DEI => 28
  | MATCH_MAC_SOURCE => 29
  | MATCH_MAC_DEST => 30
  | MATCH_IPV4_SOURCE => 31
  | MATCH_IPV4_DEST => 32
  | MATCH_IPV6_SOURCE => 33
  | MATCH_IPV6_DEST => 34
  | MATCH_IP_TOS => 35
  | MATCH_IP_PROTOCOL => 36
  | MATCH_ETHERTYPE => 37
  | MATCH_ICMP => 38
  | MATCH_IP_SOURCE_PORT_RANGE => 39
  | MATCH_IP_DEST_PORT_RANGE => 40
  | MATCH_CHARACTERISTICS => 41
  | MATCH_FRAME_SIZE_RANGE => 42
  | MATCH_RANDOM => 43
  | MATCH_TAGS_DIFFERENCE => 44
  | MATCH_TAGS_BITWISE_AND => 45
  | MATCH_TAGS_BITWISE_OR => 46
  | MATCH_TAGS_BITWISE_XOR => 47
  | MATCH_TAGS_EQUAL => 48
  | MATCH_TAG_SENDER => 49
  | MATCH_TAG_RECEIVER => 50
  | MATCH_INTEGER_RANGE => 51

open ZT_VirtualNetworkRuleType in
/-- Classifies an entry type constructor as an ACTION (the header reserves
codes 0 to 15 for actions; the seven `ACTION_*` members are the actions). -/
def ruleTypeIsAction : ZT_VirtualNetworkRuleType → Bool
  | ACTION_DROP => true
  | ACTION_ACCEPT => true
  | ACTION_TEE => true
  | ACTION_WATCH => true
  | ACTION_REDIRECT => true
  | ACTION_BREAK => true
  | ACTION_PRIORITY => true
  | _ => false

/-- Type field of a rule tag byte: `AND with 0x3f to get type`. -/
def ruleTagType (t : Nat) : Nat := t &&& 0x3f

/-- NOT modifier of a rule tag byte: `0x80 to get NOT bit`. -/
def ruleTagNot (t : Nat) : Bool := t &&& 0x80 != 0

/-- OR modifier of a rule tag byte: `0x40 to get OR bit`. -/
def ruleTagOr (t : Nat) : Bool := t &&& 0x40 != 0

/- ------------------------------------------------------------------ -/

/- Rules engine (modelled; the filter implementation is not in src/).  -/

/- ------------------------------------------------------------------ -/

/-- The seven rule actions of `enum ZT_VirtualNetworkRuleType`
(codes 0 to 6). -/
inductive RuleAction where
  | drop
  | accept
  | tee
  | watch
  | redirect
  | breakRule
  | priority
deriving DecidableEq, Repr

/-- Modelled from the spec: an entry of a rules table as seen by the
evaluator for one fixed frame.  The filter implementation is not under
`src/`.  A MATCH entry carries the raw result of its match criterion against
the frame (the frame influences evaluation only through these raw results)
together with its NOT and OR modifier bits; an ACTION entry carries its
action. -/
inductive RuleEntry where
  | action (a : RuleAction)
  | matchEntry (raw : Bool) (notBit : Bool) (orBit : Bool)
deriving DecidableEq, Repr

/-- Verdict of the rules engine for a frame. -/
inductive Verdict where
  | accept
  | drop
deriving DecidableEq, Repr

/-- Modelled from the spec: one pass of the rules engine.  `acc` is the
running boolean, `prevMatch` records whether the previous entry was a MATCH
(the OR combination applies only then).  For each MATCH the raw result is
inverted by NOT and combined into `acc` via AND, or via OR when the OR bit
is set and the previous entry was also a MATCH.  At an ACTION, if `acc` is
true the action fires (ACCEPT accepts; DROP, BREAK and REDIRECT terminate
without local acceptance; TEE, WATCH and PRIORITY are side effects and
evaluation continues); fired actions are logged.  Whether the action fired
or not, `acc` resets to true for the next block.  An exhausted table yields
DROP. -/
def ztFilterRun : List RuleEntry → Bool → Bool → Verdict × List RuleAction
  | [], _, _ => (.drop, [])
  | .action a :: rest, acc, _ =>
    if acc then
      match a with
      | .accept => (.accept, [.accept])
      | .drop => (.drop, [.drop])
      | .breakRule => (.drop, [.breakRule])
      | .redirect => (.drop, [.redirect])
      | a' =>
        let r := ztFilterRun rest true false
        (r.1, a' :: r.2)
    else
      ztFilterRun rest true false
  | .matchEntry raw notBit orBit :: rest, acc, prevMatch =>
    let m := if notBit then !raw else raw
    let acc' := if orBit && prevMatch then acc || m else acc && m
    ztFilterRun rest acc' true

/-- Modelled from the spec: evaluation of a rules table against a frame.
The running boolean starts true, so an action with no preceding matches
always fires. -/
def ztFilter (rules : List RuleEntry) : Verdict × List RuleAction :=
  ztFilterRun rules true false

/- ------------------------------------------------------------------ -/

/- Identity: type codes, signing and verification (modelled).          -/

/- ------------------------------------------------------------------ -/

/-- Identity type codes (`enum ZT_IdentityType`): `C25519` = 0
(C25519/Ed25519), `P384` = 1 (combined C25519/NIST-P-384 key). -/
inductive ZT_IdentityType where
  | C25519
  | P384
deriving DecidableEq, Repr

/-- Modelled from the spec: a ZeroTier identity (the `Identity`
implementation is not under `src/`).  It carries an identity type, the
40-bit address, the public key material, a 384-bit public-key-bundle hash
(the fingerprint hash), and whether the private component is held.  Key
material is symbolic: a key is named by a natural number and the model ties
each public key to its private counterpart. -/
structure ZT_Identity where
  itype : ZT_IdentityType
  address : Fin (2 ^ (8 * 5))
  c25519PublicKey : Nat
  p384PublicKey : Nat
  fingerprintHash : Fin (2 ^ (8 * 48))
  hasPrivateKey : Bool
deriving DecidableEq, Repr

/-- Embedded from `ZT_Identity_hasPrivate`: non-zero iff a private key is
held (the model keeps the boolean directly). -/
def ZT_Identity_hasPrivate (id : ZT_Identity) : Bool := id.hasPrivateKey

/-- Modelled from the spec: a 64-byte Ed25519 signature.  The signature
content is symbolic: the first byte slot carries an injective encoding of
the signing key and the message, the remaining 63 slots are zero, so the
signature has the length of a real Ed25519 signature and distinct messages
yield distinct signatures. -/
def ed25519Sign (pub : Nat) (msg : List Nat) : List Nat :=
  Nat.pair pub (encodeList msg) :: List.replicate 63 0

/-- Modelled from the spec: the P-384 signature component appended by
P-384-type identities.  Its length is fixed by the header's contract that a
96-byte signature buffer suffices: 96 minus the 64 Ed25519 bytes leaves 32
bytes for this component. -/
def p384SignComponent (pub : Nat) (msg : List Nat) : List Nat :=
  Nat.pair pub (encodeList msg) :: List.replicate 31 0

/-- Modelled from the spec: `ZT_Identity_sign`.  The identity must have a
private key or this fails (returns length 0); the signature buffer must be
at least 96 bytes.  C25519-type identities produce a 64-byte Ed25519
signature; P-384-type identities produce the concatenation of an Ed25519
signature and the P-384 signature component (96 bytes total).  Returns the
signature length (0 on failure) and the signature bytes. -/
def ZT_Identity_sign (id : ZT_Identity) (data : List Nat)
    (signatureBufferLength : Nat) : Nat × List Nat :=
  if id.hasPrivateKey = false then (0, [])
  else if signatureBufferLength < 96 then (0, [])
  else
    match id.itype with
    | .C25519 => (64, ed25519Sign id.c25519PublicKey data)
    | .P384 =>
      (96, ed25519Sign id.c25519PublicKey data ++ p384SignComponent id.p384PublicKey data)

/-- Modelled from the spec: `ZT_Identity_verify` checks a signature over
`data` against the identity's public key(s); returns true iff the signature
is the one the matching private key produces over `data`. -/
def ZT_Identity_verify (id : ZT_Identity) (data sig : List Nat) : Bool :=
  match id.itype with
  | .C25519 => sig == ed25519Sign id.c25519PublicKey data
  | .P384 =>
    sig == ed25519Sign id.c25519PublicKey data ++ p384SignComponent id.p384PublicKey data

/- ------------------------------------------------------------------ -/

/- Certificates and the certificate store (modelled).                  -/

/- ------------------------------------------------------------------ -/

/-- Errors returned by functions that verify or handle certificates
(`enum ZT_CertificateError`). -/
inductive ZT_CertificateError where
  | NONE
  | HAVE_NEWER_CERT
  | INVALID_FORMAT
  | INVALID_IDENTITY
  | INVALID_PRIMARY_SIGNATURE
  | INVALID_CHAIN
  | INVALID_COMPONENT_SIGNATURE
  | INVALID_UNIQUE_ID_PROOF
  | MISSING_REQUIRED_FIELDS
  | OUT_OF_VALID_TIME_WINDOW
deriving DecidableEq, Repr

open ZT_CertificateError in
/-- Numeric codes of `enum ZT_CertificateError` as assigned in the header. -/
def certificateErrorCode : ZT_CertificateError → Int
  | NONE => 0
  | HAVE_NEWER_CERT => 1
  | INVALID_FORMAT => -1
  | INVALID_IDENTITY => -2
  | INVALID_PRIMARY_SIGNATURE => -3
  | INVALID_CHAIN => -4
  | INVALID_COMPONENT_SIGNATURE => -5
  | INVALID_UNIQUE_ID_PROOF => -6
  | MISSING_REQUIRED_FIELDS => -7
  | OUT_OF_VALID_TIME_WINDOW => -8

/-- Modelled from the spec: a SHA-384 digest as used for certificate
serials.  The hash implementation is external cryptographic code not under
`src/`; the model keeps the digest's observable interface: it is 48 bytes
long and injective in its input (collision freeness is idealized).  The
first byte slot carries an injective encoding of the input, the remaining
47 slots are zero. -/
def sha384Model (input : List Nat) : List Nat :=
  encodeList input :: List.replicate 47 0

/-- Certificate subject (`ZT_Certificate_Subject`): timestamp, identities
with optional locators, networks, referenced certificate serials, update
URLs, name, and the optional unique ID with its proof signature.  List-like
fields not needed by any claim are modelled as already-encoded naturals. -/
structure ZT_Certificate_Subject where
  timestamp : Int
  identities : List Nat
  networks : List Nat
  certificates : List Nat
  updateURLs : List Nat
  name : List Nat
  uniqueId : List Nat
  uniqueIdProofSignature : List Nat
deriving DecidableEq, Repr

/-- Certificate (`ZT_Certificate`): serial number (a SHA-384 hash of the
certificate), flags, timestamp, validity window, subject, issuer identity
(modelled by its encoded fingerprint), issuer name, extended attributes,
maximum path length and issuer signature. -/
structure ZT_Certificate where
  serialNo : List Nat
  flags : Nat
  timestamp : Int
  validityNotBefore : Int
  validityNotAfter : Int
  subject : ZT_Certificate_Subject
  issuer : Nat
  issuerName : List Nat
  extendedAttributes : List Nat
  maxPathLength : Nat
  signature : List Nat
deriving DecidableEq, Repr

/-- Injective encoding of an integer into a natural (sign plus magnitude). -/
def encInt (i : Int) : Nat :=
  if 0 ≤ i then 2 * i.toNat else 2 * (-i).toNat - 1

/-- Modelled from the spec: canonical encoding of a certificate subject. -/
def subjectEncode (s : ZT_Certificate_Subject) : List Nat :=
  [encInt s.timestamp, encodeList s.identities, encodeList s.networks,
   encodeList s.certificates, encodeList s.updateURLs, encodeList s.name,
   encodeList s.uniqueId, encodeList s.uniqueIdProofSignature]

/-- Modelled from the spec: canonical encoding of a certificate.  The
serial number is never part of the encoding (it is derived from it), and
the signature field is included only when `omitSignature` is false. -/
def certEncode (c : ZT_Certificate) (omitSignature : Bool) : List Nat :=
  [c.flags, encInt c.timestamp, encInt c.validityNotBefore, encInt c.validityNotAfter]
    ++ subjectEncode c.subject
    ++ [c.issuer, encodeList c.issuerName, encodeList c.extendedAttributes, c.maxPathLength]
    ++ (if omitSignature then [] else [encodeList c.signature])

/-- Modelled from the spec: attaching the issuer signature to a certificate
and deriving its serial number, which is the SHA-384 digest of the
certificate's canonical encoding with the signature omitted. -/
def certSign (c : ZT_Certificate) (sig : List Nat) : ZT_Certificate :=
  let c' := { c with signature := sig }
  { c' with serialNo := sha384Model (certEncode c' true) }

/-- The supersession key of a certificate: its (issuer, subject-unique-ID)
pair. -/
def certKey (c : ZT_Certificate) : Nat × List Nat :=
  (c.issuer, c.subject.uniqueId)

/-- Modelled from the spec: insertion into the certificate store.  For any
(issuer, subject-unique-ID) pair the store retains only the newest
certificate by `subject.timestamp`: adding one older than a stored
certificate with the same pair fails with HAVE_NEWER_CERT and leaves the
store unchanged; otherwise the new certificate replaces any same-pair
certificates it supersedes. -/
def certStoreInsert (store : List ZT_Certificate) (c : ZT_Certificate) :
    ZT_CertificateError × List ZT_Certificate :=
  if store.any (fun e => certKey e == certKey c && c.subject.timestamp < e.subject.timestamp) then
    (.HAVE_NEWER_CERT, store)
  else
    (.NONE, c :: store.filter (fun e => certKey e != certKey c))

/- ------------------------------------------------------------------ -/

/- Endpoints and locators (modelled).                                  -/

/- ------------------------------------------------------------------ -/

/-- Full identity fingerprint (`ZT_Fingerprint`): 40-bit address plus
384-bit hash of the identity public key(s). -/
structure ZT_Fingerprint where
  address : Fin (2 ^ (8 * 5))
  hash : Fin (2 ^ (8 * 48))
deriving DecidableEq, Repr

/-- Fingerprint of an identity (`ZT_Identity_fingerprint`). -/
def identityFingerprint (id : ZT_Identity) : ZT_Fingerprint :=
  ⟨id.address, id.fingerprintHash⟩

/-- Modelled from the spec: an IP address with port, IPv4 or IPv6 (the
`InetAddress` implementation is not under `src/`). -/
inductive InetAddress where
  | v4 (addr : Fin (2 ^ (8 * 4))) (port : Fin (2 ^ (8 * 2)))
  | v6 (addr : Fin (2 ^ (8 * 16))) (port : Fin (2 ^ (8 * 2)))
deriving DecidableEq, Repr

/-- Endpoint variants of `enum ZT_EndpointType` (codes 0 to 8), with the
payload each variant carries per the data model: nil; ZeroTier relay
(fingerprint); Ethernet, WiFi-direct and Bluetooth (48-bit MAC); naked IP,
IP/UDP, IP/TCP and IP/HTTP (IP address). -/
inductive ZT_Endpoint where
  | nil
  | zerotier (fp : ZT_Fingerprint)
  | ethernet (mac : Fin (2 ^ (8 * 6)))
  | wifiDirect (mac : Fin (2 ^ (8 * 6)))
  | bluetooth (mac : Fin (2 ^ (8 * 6)))
  | ip (addr : InetAddress)
  | ipUdp (addr : InetAddress)
  | ipTcp (addr : InetAddress)
  | ipHttp (addr : InetAddress)
deriving DecidableEq, Repr

/-- Read `k` big-endian bytes as a `k`-byte-wide value, failing when the
read bytes exceed the width (they cannot when they are genuine bytes). -/
def readBEFin (k : Nat) (bs : List Nat) : Option (Fin (2 ^ (8 * k)) × List Nat) :=
  let r := readBE k bs
  if h : r.1 < 2 ^ (8 * k) then some (⟨r.1, h⟩, r.2) else none

/-- Modelled from the spec: canonical byte encoding of an IP address. -/
def inetMarshal : InetAddress → List Nat
  | .v4 a p => 4 :: (encodeBE 4 a.val ++ encodeBE 2 p.val)
  | .v6 a p => 6 :: (encodeBE 16 a.val ++ encodeBE 2 p.val)

/-- Modelled from the spec: decoding of an IP address. -/
def inetUnmarshal (bs : List Nat) : Option (InetAddress × List Nat) :=
  match bs with
  | [] => none
  | fam :: bs' =>
    if fam = 4 then
      (readBEFin 4 bs').bind fun ar =>
        (readBEFin 2 ar.2).bind fun pr =>
          some (.v4 ar.1 pr.1, pr.2)
    else if fam = 6 then
      (readBEFin 16 bs').bind fun ar =>
        (readBEFin 2 ar.2).bind fun pr =>
          some (.v6 ar.1 pr.1, pr.2)
    else none

/-- Modelled from the spec: canonical byte encoding of an endpoint, one
type byte (the `ZT_EndpointType` code) followed by the payload. -/
def endpointMarshal : ZT_Endpoint → List Nat
  | .nil => [0]
  | .zerotier fp => 1 :: (encodeBE 5 fp.address.val ++ encodeBE 48 fp.hash.val)
  | .ethernet m => 2 :: encodeBE 6 m.val
  | .wifiDirect m => 3 :: encodeBE 6 m.val
  | .bluetooth m => 4 :: encodeBE 6 m.val
  | .ip a => 5 :: inetMarshal a
  | .ipUdp a => 6 :: inetMarshal a
  | .ipTcp a => 7 :: inetMarshal a
  | .ipHttp a => 8 :: inetMarshal a

/-- Modelled from the spec: decoding of an endpoint. -/
def endpointUnmarshal (bs : List Nat) : Option (ZT_Endpoint × List Nat) :=
  match bs with
  | [] => none
  | t :: bs' =>
    if t = 0 then some (.nil, bs')
    else if t = 1 then
      (readBEFin 5 bs').bind fun ar =>
        (readBEFin 48 ar.2).bind fun hr =>
          some (.zerotier ⟨ar.1, hr.1⟩, hr.2)
    else if t = 2 then
      (readBEFin 6 bs').bind fun mr => some (.ethernet mr.1, mr.2)
    else if t = 3 then
      (readBEFin 6 bs').bind fun mr => some (.wifiDirect mr.1, mr.2)
    else if t = 4 then
      (readBEFin 6 bs').bind fun mr => some (.bluetooth mr.1, mr.2)
    else if t = 5 then
      (inetUnmarshal bs').bind fun ar => some (.ip ar.1, ar.2)
    else if t = 6 then
      (inetUnmarshal bs').bind fun ar => some (.ipUdp ar.1, ar.2)
    else if t = 7 then
      (inetUnmarshal bs').bind fun ar => some (.ipTcp ar.1, ar.2)
    else if t = 8 then
      (inetUnmarshal bs').bind fun ar => some (.ipHttp ar.1, ar.2)
    else none

/-- Concatenated encodings of a list of endpoints. -/
def endpointsMarshal : List ZT_Endpoint → List Nat
  | [] => []
  | e :: es => endpointMarshal e ++ endpointsMarshal es

/-- Decoding of exactly `n` consecutive endpoints. -/
def endpointsUnmarshalN : Nat → List Nat → Option (List ZT_Endpoint × List Nat)
  | 0, bs => some ([], bs)
  | n + 1, bs =>
    (endpointUnmarshal bs).bind fun er =>
      (endpointsUnmarshalN n er.2).bind fun esr =>
        some (er.1 :: esr.1, esr.2)

/-- Modelled from the spec: a locator is a timestamped, signed list of at
most 8 endpoints with the fingerprint of the signing identity (the
`Locator` implementation is not under `src/`). -/
structure ZT_Locator where
  timestamp : Fin (2 ^ (8 * 8))
  endpoints : List ZT_Endpoint
  signer : ZT_Fingerprint
  signature : List Nat
deriving DecidableEq, Repr

/-- Modelled from the spec: the canonical encoding of (timestamp,
endpoints) that the locator signature is computed over. -/
def locatorSigningData (ts : Fin (2 ^ (8 * 8))) (eps : List ZT_Endpoint) : List Nat :=
  encodeBE 8 ts.val ++ eps.length :: endpointsMarshal eps

/-- Modelled from the spec: `ZT_Locator_marshal` serializes the timestamp,
the endpoint count and endpoints, the signer fingerprint, and the
length-prefixed signature. -/
def ZT_Locator_marshal (loc : ZT_Locator) : List Nat :=
  locatorSigningData loc.timestamp loc.endpoints
    ++ encodeBE 5 loc.signer.address.val
    ++ encodeBE 48 loc.signer.hash.val
    ++ loc.signature.length :: loc.signature

/-- Modelled from the spec: `ZT_Locator_unmarshal` decodes a serialized
locator, enforcing the strict upper bound of 8 endpoints. -/
def ZT_Locator_unmarshal (bs : List Nat) : Option ZT_Locator :=
  (readBEFin 8 bs).bind fun tsr =>
    match tsr.2 with
    | [] => none
    | epCount :: r2 =>
      if 8 < epCount then none
      else
        (endpointsUnmarshalN epCount r2).bind fun epr =>
          (readBEFin 5 epr.2).bind fun sar =>
            (readBEFin 48 sar.2).bind fun shr =>
              match shr.2 with
              | [] => none
              | sigLen :: r6 =>
                if r6.length = sigLen then
                  some { timestamp := tsr.1, endpoints := epr.1,
                         signer := ⟨sar.1, shr.1⟩, signature := r6 }
                else none

/-- Modelled from the spec: `ZT_Locator_create` signs the canonical
encoding of (timestamp, endpoints) with the signer identity.  It fails
(returns none, the model's NULL) when more than 8 endpoints are supplied or
the signer identity does not hold a private key. -/
def ZT_Locator_create (ts : Fin (2 ^ (8 * 8))) (endpoints : List ZT_Endpoint)
    (signer : ZT_Identity) : Option ZT_Locator :=
  if 8 < endpoints.length then none
  else if signer.hasPrivateKey = false then none
  else
    some { timestamp := ts, endpoints := endpoints,
           signer := identityFingerprint signer,
           signature := (ZT_Identity_sign signer (locatorSigningData ts endpoints) 96).2 }

/-- Modelled from the spec: `ZT_Locator_verify` recomputes the canonical
encoding of (timestamp, endpoints) and checks the signature against the
signer identity. -/
def ZT_Locator_verify (loc : ZT_Locator) (signer : ZT_Identity) : Bool :=
  ZT_Identity_verify signer (locatorSigningData loc.timestamp loc.endpoints) loc.signature

/- ------------------------------------------------------------------ -/

/- Node state and join (modelled).                                     -/

/- ------------------------------------------------------------------ -/

/-- Virtual network status codes (`enum ZT_VirtualNetworkStatus`):
`REQUESTING_CONFIGURATION` = 0, `OK` = 1, `ACCESS_DENIED` = 2,
`NOT_FOUND` = 3. -/
inductive ZT_VirtualNetworkStatus where
  | REQUESTING_CONFIGURATION
  | OK
  | ACCESS_DENIED
  | NOT_FOUND
deriving DecidableEq, Repr

/-- Modelled from the spec: the per-network state a node keeps for a joined
network that the join operation touches: the network ID, the optionally
pinned controller fingerprint, and the configuration status. -/
structure NetworkEntry where
  nwid : Nat
  controllerFingerprint : Option ZT_Fingerprint
  status : ZT_VirtualNetworkStatus
deriving DecidableEq, Repr

/-- Modelled from the spec: externally observable side effects of a
management call (callback invocations such as kicking off a network
configuration request). -/
inductive NodeEvent where
  | configRequested (nwid : Nat)
deriving DecidableEq, Repr

/-- Modelled from the spec: the node state join operates on, the network
membership map. -/
structure NodeState where
  networks : List NetworkEntry
deriving DecidableEq, Repr

/-- Whether the node is already a member of the given network. -/
def nodeHasNetwork (node : NodeState) (nwid : Nat) : Bool :=
  node.networks.any (fun n => n.nwid == nwid)

/-- Modelled from the spec: `ZT_Node_join`.  If the node is already a
member of the network, nothing is done and OK is returned; otherwise a new
membership in state REQUESTING_CONFIGURATION is created, a configuration
request is kicked off, and OK is returned.  Returns the result code, the
new node state, and the emitted side effects. -/
def ZT_Node_join (node : NodeState) (nwid : Nat)
    (controllerFingerprint : Option ZT_Fingerprint) :
    Int × NodeState × List NodeEvent :=
  if nodeHasNetwork node nwid then (ZT_RESULT_OK, node, [])
  else
    (ZT_RESULT_OK,
     { networks :=
        node.networks ++ [⟨nwid, controllerFingerprint, .REQUESTING_CONFIGURATION⟩] },
     [.configRequested nwid])

/- ------------------------------------------------------------------ -/

/- Sample values used to exercise the operations on concrete inputs.   -/

/- ------------------------------------------------------------------ -/

/-- A sample certificate subject carrying a unique ID. -/
def sampleSubject (ts : Int) : ZT_Certificate_Subject :=
  { timestamp := ts, identities := [1], networks := [], certificates := [],
    updateURLs := [], name := [], uniqueId := [7], uniqueIdProofSignature := [3] }

/-- A sample certificate with a fixed issuer and unique ID. -/
def sampleCert (ts : Int) : ZT_Certificate :=
  { serialNo := [], flags := 0, timestamp := 0, validityNotBefore := 0,
    validityNotAfter := 0, subject := sampleSubject ts, issuer := 5,
    issuerName := [], extendedAttributes := [], maxPathLength := 0, signature := [] }

/-- A sample C25519-type identity holding a private key. -/
def sampleIdentityC25519 : ZT_Identity :=
  { itype := .C25519, address := ⟨1, by norm_num⟩, c25519PublicKey := 3,
    p384PublicKey := 4, fingerprintHash := ⟨2, by norm_num⟩, hasPrivateKey := true }

/-- A sample P-384-type identity holding a private key. -/
def sampleIdentityP384 : ZT_Identity :=
  { itype := .P384, address := ⟨6, by norm_num⟩, c25519PublicKey := 7,
    p384PublicKey := 8, fingerprintHash := ⟨9, by norm_num⟩, hasPrivateKey := true }

/-- A sample identity without a private key. -/
def sampleIdentityPublicOnly : ZT_Identity :=
  { sampleIdentityC25519 with hasPrivateKey := false }

/-- A sample IP/UDP endpoint. -/
def sampleEndpoint : ZT_Endpoint :=
  .ipUdp (.v4 ⟨0x01020304, by norm_num⟩ ⟨9993, by norm_num⟩)

/-- A sample locator with one endpoint. -/
def sampleLocator : ZT_Locator :=
  { timestamp := ⟨1000, by norm_num⟩, endpoints := [sampleEndpoint],
    signer := ⟨⟨1, by norm_num⟩, ⟨2, by norm_num⟩⟩, signature := [9] }

/-- A sample timestamp for locator creation. -/
def sampleTimestamp : Fin (2 ^ (8 * 8)) := ⟨5, by norm_num⟩

/-- The locator that creating from the sample timestamp, endpoint and
C25519 identity yields. -/
def sampleCreatedLocator : ZT_Locator :=
  { timestamp := sampleTimestamp, endpoints := [sampleEndpoint],
    signer := identityFingerprint sampleIdentityC25519,
    signature := (ZT_Identity_sign sampleIdentityC25519
      (locatorSigningData sampleTimestamp [sampleEndpoint]) 96).2 }

/-- A sample node state that is a member of network 42. -/
def sampleNode : NodeState :=
  { networks := [⟨42, none, .OK⟩] }

/- ------------------------------------------------------------------ -/
/- Properties of the embedding and the models.                         -/
/- ------------------------------------------------------------------ -/

theorem encodeList_injective : Function.Injective encodeList := by
  intro a
  induction a with
  | nil =>
    intro b h
    cases b with
    | nil => rfl
    | cons x xs =>
      simp only [encodeList, List.foldr] at h
      omega
  | cons x xs ih =>
    intro b h
    cases b with
    | nil =>
      simp only [encodeList, List.foldr] at h
      omega
    | cons y ys =>
      simp only [encodeList, List.foldr] at h
      obtain ⟨h3, h4⟩ := Nat.pair_eq_pair.mp (Nat.add_right_cancel h)
      have h5 : encodeList xs = encodeList ys := h4
      rw [h3, ih h5]

theorem encodeBE_length (k n : Nat) : (encodeBE k n).length = k := by
  induction k generalizing n with
  | zero => rfl
  | succ k ih => simp [encodeBE, ih]

theorem decodeBE_append_single (bs : List Nat) (b : Nat) :
    decodeBE (bs ++ [b]) = decodeBE bs * 256 + b := by
  simp [decodeBE, List.foldl_append]

theorem decodeBE_encodeBE (k n : Nat) :
    decodeBE (encodeBE k n) = n % 2 ^ (8 * k) := by
  induction k generalizing n with
  | zero => simp [encodeBE, decodeBE, Nat.mod_one]
  | succ k ih =>
    have hsplit : n % 2 ^ (8 * (k + 1)) = n % 256 + 256 * (n / 256 % 2 ^ (8 * k)) := by
      have h256 : (2 : Nat) ^ (8 * (k + 1)) = 256 * 2 ^ (8 * k) := by
        rw [Nat.mul_add, Nat.pow_add]
        ring
      rw [h256, Nat.mod_mul]
    rw [encodeBE, decodeBE_append_single, ih, hsplit]
    ring

theorem decodeBE_encodeBE_of_lt {k n : Nat} (h : n < 2 ^ (8 * k)) :
    decodeBE (encodeBE k n) = n := by
  rw [decodeBE_encodeBE, Nat.mod_eq_of_lt h]

theorem readBE_encodeBE (k n : Nat) (rest : List Nat) (h : n < 2 ^ (8 * k)) :
    readBE k (encodeBE k n ++ rest) = (n, rest) := by
  have hl := encodeBE_length k n
  simp only [readBE]
  rw [List.take_left' hl, List.drop_left' hl, decodeBE_encodeBE_of_lt h]

theorem ztFilterRun_accept_mem (rules : List RuleEntry) (acc prevMatch : Bool)
    (h : (ztFilterRun rules acc prevMatch).1 = .accept) :
    RuleAction.accept ∈ (ztFilterRun rules acc prevMatch).2 := by
  induction rules generalizing acc prevMatch with
  | nil => simp [ztFilterRun] at h
  | cons e rest ih =>
    cases e with
    | action a =>
      by_cases hacc : acc
      · cases a <;>
          simp only [ztFilterRun, hacc, if_true] at h ⊢ <;>
          first
            | exact List.mem_singleton.mpr rfl
            | (exact absurd h (by simp))
            | (exact List.mem_cons_of_mem _ (ih true false h))
      · simp only [ztFilterRun, hacc, if_false] at h ⊢
        exact ih true false h
    | matchEntry raw notBit orBit =>
      simp only [ztFilterRun] at h ⊢
      exact ih _ true h

theorem ed25519Sign_length (pub : Nat) (msg : List Nat) :
    (ed25519Sign pub msg).length = 64 := by
  simp [ed25519Sign]

theorem p384SignComponent_length (pub : Nat) (msg : List Nat) :
    (p384SignComponent pub msg).length = 32 := by
  simp [p384SignComponent]

theorem ed25519Sign_msg_injective (pub : Nat) {m m' : List Nat}
    (h : ed25519Sign pub m = ed25519Sign pub m') : m = m' := by
  simp only [ed25519Sign, List.cons.injEq] at h
  exact encodeList_injective (Nat.pair_eq_pair.mp h.1).2

theorem ed25519Sign_append_ne (pub : Nat) {m m' : List Nat} (h : m ≠ m')
    (x y : List Nat) : ed25519Sign pub m ++ x ≠ ed25519Sign pub m' ++ y := by
  intro he
  simp only [ed25519Sign, List.cons_append, List.cons.injEq] at he
  exact h (encodeList_injective (Nat.pair_eq_pair.mp he.1).2)

theorem sha384Model_length (input : List Nat) : (sha384Model input).length = 48 := by
  simp [sha384Model]

theorem readBEFin_encodeBE (k : Nat) (v : Fin (2 ^ (8 * k))) (rest : List Nat) :
    readBEFin k (encodeBE k v.val ++ rest) = some (v, rest) := by
  simp [readBEFin, readBE_encodeBE k v.val rest v.isLt, v.isLt]

theorem inetUnmarshal_marshal (a : InetAddress) (rest : List Nat) :
    inetUnmarshal (inetMarshal a ++ rest) = some (a, rest) := by
  cases a with
  | v4 addr port =>
    simp [inetMarshal, inetUnmarshal, List.append_assoc,
      readBEFin_encodeBE 4 addr (encodeBE 2 port.val ++ rest),
      readBEFin_encodeBE 2 port rest]
  | v6 addr port =>
    simp [inetMarshal, inetUnmarshal, List.append_assoc,
      readBEFin_encodeBE 16 addr (encodeBE 2 port.val ++ rest),
      readBEFin_encodeBE 2 port rest]

theorem endpointUnmarshal_marshal (e : ZT_Endpoint) (rest : List Nat) :
    endpointUnmarshal (endpointMarshal e ++ rest) = some (e, rest) := by
  cases e with
  | nil => simp [endpointMarshal, endpointUnmarshal]
  | zerotier fp =>
    simp [endpointMarshal, endpointUnmarshal, List.append_assoc,
      readBEFin_encodeBE 5 fp.address (encodeBE 48 fp.hash.val ++ rest),
      readBEFin_encodeBE 48 fp.hash rest]
  | ethernet m =>
    simp [endpointMarshal, endpointUnmarshal,
      readBEFin_encodeBE 6 m rest]
  | wifiDirect m =>
    simp [endpointMarshal, endpointUnmarshal,
      readBEFin_encodeBE 6 m rest]
  | bluetooth m =>
    simp [endpointMarshal, endpointUnmarshal,
      readBEFin_encodeBE 6 m rest]
  | ip a =>
    simp [endpointMarshal, endpointUnmarshal, List.append_assoc, inetUnmarshal_marshal]
  | ipUdp a =>
    simp [endpointMarshal, endpointUnmarshal, List.append_assoc, inetUnmarshal_marshal]
  | ipTcp a =>
    simp [endpointMarshal, endpointUnmarshal, List.append_assoc, inetUnmarshal_marshal]
  | ipHttp a =>
    simp [endpointMarshal, endpointUnmarshal, List.append_assoc, inetUnmarshal_marshal]

theorem endpointsUnmarshalN_marshal (eps : List ZT_Endpoint) (rest : List Nat) :
    endpointsUnmarshalN eps.length (endpointsMarshal eps ++ rest) = some (eps, rest) := by
  induction eps with
  | nil => simp [endpointsMarshal, endpointsUnmarshalN]
  | cons e es ih =>
    simp [endpointsMarshal, endpointsUnmarshalN, List.append_assoc,
      endpointUnmarshal_marshal e (endpointsMarshal es ++ rest), ih]

/- ------------------------------------------------------------------ -/
/- Claim theorems.                                                     -/
/- ------------------------------------------------------------------ -/

set_option maxRecDepth 10000 in
/-- C1: each rules-table entry's type occupies the low 6 bits of its tag
byte (mask 0x3f, equal to the value modulo 64), bit 7 (mask 0x80) is the
NOT modifier and bit 6 (mask 0x40) is the OR modifier, so the tag byte
decomposes as type + 64·OR + 128·NOT; every ACTION type of
`ZT_VirtualNetworkRuleType` has a code in the range 0 to 15 and every MATCH
type a code in the range 16 to 63. -/
theorem zt_rule_tag_byte_and_type_ranges :
    (∀ t : Nat, t < 256 →
      ruleTagType t = t % 64 ∧
      ruleTagNot t = t.testBit 7 ∧
      ruleTagOr t = t.testBit 6 ∧
      t = ruleTagType t + (if ruleTagOr t then 64 else 0)
            + (if ruleTagNot t then 128 else 0)) ∧
    (∀ r : ZT_VirtualNetworkRuleType,
      (ruleTypeIsAction r = true → ruleTypeCode r ≤ ZT_NETWORK_RULE_ACTION__MAX_ID) ∧
      (ruleTypeIsAction r = false →
        ZT_NETWORK_RULE_ACTION__MAX_ID < ruleTypeCode r ∧
        ruleTypeCode r ≤ ZT_NETWORK_RULE_MATCH__MAX_ID)) := by
  constructor
  · decide
  · intro r
    cases r <;> decide

/-- Witness for C1 at the concrete tag byte 0xC5 = 197 and the
`ACTION_ACCEPT` and `MATCH_ETHERTYPE` entry types. -/
theorem zt_rule_tag_byte_and_type_ranges_witness :
    (ruleTagType 197 = 197 % 64 ∧ ruleTagNot 197 = Nat.testBit 197 7) ∧
    ruleTypeCode .ACTION_ACCEPT ≤ ZT_NETWORK_RULE_ACTION__MAX_ID ∧
    ZT_NETWORK_RULE_ACTION__MAX_ID < ruleTypeCode .MATCH_ETHERTYPE := by
  have h1 := zt_rule_tag_byte_and_type_ranges.1 197 (by decide)
  have h2 := (zt_rule_tag_byte_and_type_ranges.2 .ACTION_ACCEPT).1 (by decide)
  have h3 := (zt_rule_tag_byte_and_type_ranges.2 .MATCH_ETHERTYPE).2 (by decide)
  exact ⟨⟨h1.1, h1.2.1⟩, h2, h3.1⟩

/-- C2: for every rules table and every frame (a frame influences
evaluation only through the raw results carried by the MATCH entries), if
evaluation reaches the end of the table without an ACCEPT action having
fired, the verdict is DROP; moreover an action with no preceding matches
always fires. -/
theorem zt_filter_default_drop :
    (∀ rules : List RuleEntry,
      RuleAction.accept ∉ (ztFilter rules).2 → (ztFilter rules).1 = Verdict.drop) ∧
    (∀ (a : RuleAction) (rest : List RuleEntry),
      a ∈ (ztFilter (.action a :: rest)).2) := by
  constructor
  · intro rules h
    cases hv : (ztFilter rules).1 with
    | accept => exact absurd (ztFilterRun_accept_mem rules true false hv) h
    | drop => rfl
  · intro a rest
    cases a <;> simp [ztFilter, ztFilterRun]

/-- Witness for C2: a one-entry table whose single MATCH matches the frame
but is followed by no action; no ACCEPT fires and the verdict is DROP. -/
theorem zt_filter_default_drop_witness :
    RuleAction.accept ∉ (ztFilter [RuleEntry.matchEntry true false false]).2 ∧
    (ztFilter [RuleEntry.matchEntry true false false]).1 = Verdict.drop ∧
    RuleAction.drop ∈ (ztFilter [RuleEntry.action .drop]).2 :=
  ⟨by decide,
   zt_filter_default_drop.1 [RuleEntry.matchEntry true false false] (by decide),
   zt_filter_default_drop.2 .drop []⟩

/-- C3: a certificate's 48-byte serial number equals the SHA-384 digest
(modelled) of the certificate's canonical encoding with the signature field
omitted; in particular it does not depend on the signature. -/
theorem zt_certificate_serial_is_digest (c : ZT_Certificate) (sig : List Nat) :
    (certSign c sig).serialNo = sha384Model (certEncode (certSign c sig) true) ∧
    (certSign c sig).serialNo.length = 48 ∧
    ∀ sig' : List Nat, (certSign c sig').serialNo = (certSign c sig).serialNo := by
  refine ⟨rfl, sha384Model_length _, fun sig' => rfl⟩

/-- C4: inserting a certificate whose (issuer, subject-unique-ID) pair
equals that of an already-stored certificate with a strictly newer
subject timestamp returns HAVE_NEWER_CERT and leaves the store unchanged. -/
theorem zt_cert_store_insert_older_fails (store : List ZT_Certificate)
    (c e : ZT_Certificate) (he : e ∈ store) (hk : certKey e = certKey c)
    (ht : c.subject.timestamp < e.subject.timestamp) :
    certStoreInsert store c = (ZT_CertificateError.HAVE_NEWER_CERT, store) := by
  have hany : store.any
      (fun e' => certKey e' == certKey c && c.subject.timestamp < e'.subject.timestamp)
      = true := by
    rw [List.any_eq_true]
    exact ⟨e, he, by simp [hk, ht]⟩
  simp [certStoreInsert, hany]

/-- Witness for C4: a store holding a certificate with subject timestamp
2000 rejects an equal-key certificate with subject timestamp 1000. -/
theorem zt_cert_store_insert_older_fails_witness :
    sampleCert 2000 ∈ [sampleCert 2000] ∧
    certKey (sampleCert 2000) = certKey (sampleCert 1000) ∧
    (sampleCert 1000).subject.timestamp < (sampleCert 2000).subject.timestamp ∧
    certStoreInsert [sampleCert 2000] (sampleCert 1000) =
      (ZT_CertificateError.HAVE_NEWER_CERT, [sampleCert 2000]) :=
  ⟨by decide, by decide, by decide,
   zt_cert_store_insert_older_fails [sampleCert 2000] (sampleCert 1000)
     (sampleCert 2000) (by decide) (by decide) (by decide)⟩

/-- C5: for every identity holding a private key, verifying a message
against the signature produced over it succeeds, and verifying it against a
signature produced over a different message fails. -/
theorem zt_identity_sign_verify (id : ZT_Identity) (m m' : List Nat)
    (hpriv : ZT_Identity_hasPrivate id = true) :
    ZT_Identity_verify id m (ZT_Identity_sign id m 96).2 = true ∧
    (m ≠ m' → ZT_Identity_verify id m (ZT_Identity_sign id m' 96).2 = false) := by
  simp only [ZT_Identity_hasPrivate] at hpriv
  cases hty : id.itype with
  | C25519 =>
    constructor
    · simp [ZT_Identity_sign, ZT_Identity_verify, hpriv, hty]
    · intro hne
      simp only [ZT_Identity_sign, ZT_Identity_verify, hpriv, hty]
      simp only [Bool.false_eq_true, if_false, show ¬(96 < 96) from by omega, if_neg,
        not_false_eq_true]
      rw [beq_eq_false_iff_ne]
      exact fun hc => hne (ed25519Sign_msg_injective _ hc).symm
  | P384 =>
    constructor
    · simp [ZT_Identity_sign, ZT_Identity_verify, hpriv, hty]
    · intro hne
      simp only [ZT_Identity_sign, ZT_Identity_verify, hpriv, hty]
      simp only [Bool.false_eq_true, if_false, show ¬(96 < 96) from by omega, if_neg,
        not_false_eq_true]
      rw [beq_eq_false_iff_ne]
      exact ed25519Sign_append_ne _ (fun he => hne he.symm) _ _

/-- Witness for C5 using the sample C25519 identity and the distinct
messages [1] and [2]. -/
theorem zt_identity_sign_verify_witness :
    ZT_Identity_hasPrivate sampleIdentityC25519 = true ∧
    ZT_Identity_verify sampleIdentityC25519 [1]
      (ZT_Identity_sign sampleIdentityC25519 [1] 96).2 = true ∧
    ([1] : List Nat) ≠ [2] ∧
    ZT_Identity_verify sampleIdentityC25519 [1]
      (ZT_Identity_sign sampleIdentityC25519 [2] 96).2 = false := by
  refine ⟨rfl, ?_, by decide, ?_⟩
  · exact (zt_identity_sign_verify sampleIdentityC25519 [1] [2] rfl).1
  · exact (zt_identity_sign_verify sampleIdentityC25519 [1] [2] rfl).2 (by decide)

/-- C6: signing requires the private component: an identity without a
private key fails to sign (returns length 0); with a private key and an
adequate (at least 96-byte) buffer, a C25519-type identity produces a
64-byte Ed25519 signature and a P-384-type identity produces the
concatenation of an Ed25519 signature and the P-384 signature component,
96 bytes in total, so a 96-byte buffer suffices. -/
theorem zt_identity_sign_requires_private_and_sizes (id : ZT_Identity)
    (data : List Nat) (buflen : Nat) :
    (ZT_Identity_hasPrivate id = false → (ZT_Identity_sign id data buflen).1 = 0) ∧
    (ZT_Identity_hasPrivate id = true → 96 ≤ buflen →
      (id.itype = .C25519 →
        (ZT_Identity_sign id data buflen).1 = 64 ∧
        (ZT_Identity_sign id data buflen).2 = ed25519Sign id.c25519PublicKey data ∧
        (ZT_Identity_sign id data buflen).2.length = 64) ∧
      (id.itype = .P384 →
        (ZT_Identity_sign id data buflen).1 = 96 ∧
        (ZT_Identity_sign id data buflen).2 =
          ed25519Sign id.c25519PublicKey data
            ++ p384SignComponent id.p384PublicKey data ∧
        (ZT_Identity_sign id data buflen).2.length = 96)) := by
  simp only [ZT_Identity_hasPrivate]
  refine ⟨fun hfalse => by simp [ZT_Identity_sign, hfalse], fun htrue hbuf => ?_⟩
  have hnot : ¬ (buflen < 96) := by omega
  constructor
  · intro hty
    refine ⟨?_, ?_, ?_⟩ <;>
      simp [ZT_Identity_sign, htrue, hnot, hty, ed25519Sign_length]
  · intro hty
    refine ⟨?_, ?_, ?_⟩ <;>
      simp [ZT_Identity_sign, htrue, hnot, hty, ed25519Sign_length,
        p384SignComponent_length]

/-- Witness for C6 at the three sample identities (private C25519, private
P-384, public-only) with a 96-byte buffer. -/
theorem zt_identity_sign_requires_private_and_sizes_witness :
    (ZT_Identity_hasPrivate sampleIdentityPublicOnly = false ∧
      (ZT_Identity_sign sampleIdentityPublicOnly [1] 96).1 = 0) ∧
    (ZT_Identity_hasPrivate sampleIdentityC25519 = true ∧ 96 ≤ 96 ∧
      sampleIdentityC25519.itype = .C25519 ∧
      (ZT_Identity_sign sampleIdentityC25519 [1] 96).2.length = 64) ∧
    (ZT_Identity_hasPrivate sampleIdentityP384 = true ∧
      sampleIdentityP384.itype = .P384 ∧
      (ZT_Identity_sign sampleIdentityP384 [1] 96).2.length = 96) := by
  refine ⟨⟨rfl, ?_⟩, ⟨rfl, by omega, rfl, ?_⟩, ⟨rfl, rfl, ?_⟩⟩
  · exact (zt_identity_sign_requires_private_and_sizes sampleIdentityPublicOnly [1] 96).1 rfl
  · exact (((zt_identity_sign_requires_private_and_sizes sampleIdentityC25519 [1] 96).2
      rfl (by omega)).1 rfl).2.2
  · exact (((zt_identity_sign_requires_private_and_sizes sampleIdentityP384 [1] 96).2
      rfl (by omega)).2 rfl).2.2

/-- C7: unmarshalling the result of marshalling a locator (with the
enforced bound of at most 8 endpoints) yields an equal locator; a locator
returned by create verifies against its signer; and create fails (NULL)
when more than 8 endpoints are supplied or the signer holds no private
key. -/
theorem zt_locator_roundtrip_verify_create :
    (∀ loc : ZT_Locator, loc.endpoints.length ≤ 8 →
      ZT_Locator_unmarshal (ZT_Locator_marshal loc) = some loc) ∧
    (∀ (ts : Fin (2 ^ (8 * 8))) (eps : List ZT_Endpoint) (signer : ZT_Identity)
        (loc : ZT_Locator), ZT_Locator_create ts eps signer = some loc →
      ZT_Locator_verify loc signer = true) ∧
    (∀ (ts : Fin (2 ^ (8 * 8))) (eps : List ZT_Endpoint) (signer : ZT_Identity),
      8 < eps.length ∨ signer.hasPrivateKey = false →
      ZT_Locator_create ts eps signer = none) := by
  refine ⟨?_, ?_, ?_⟩
  · intro loc hle
    obtain ⟨ts, eps, ⟨sa, sh⟩, sig⟩ := loc
    simp only [ZT_Locator_marshal, locatorSigningData, List.cons_append,
      List.append_assoc] at *
    simp [ZT_Locator_unmarshal, readBEFin_encodeBE, endpointsUnmarshalN_marshal,
      Nat.not_lt.mpr hle]
  · intro ts eps signer loc hc
    by_cases h8 : 8 < eps.length
    · simp [ZT_Locator_create, h8] at hc
    · by_cases hp : signer.hasPrivateKey = false
      · simp [ZT_Locator_create, h8, hp] at hc
      · have hp' : signer.hasPrivateKey = true := by
          revert hp
          cases signer.hasPrivateKey <;> simp
        simp only [ZT_Locator_create, if_neg h8, hp', Bool.true_eq_false, if_false,
          Option.some.injEq] at hc
        subst hc
        cases hty : signer.itype <;>
          simp [ZT_Locator_verify, ZT_Identity_verify, ZT_Identity_sign, hp', hty]
  · intro ts eps signer h
    rcases h with h | h
    · simp [ZT_Locator_create, h]
    · simp [ZT_Locator_create, h]

/-- Witness for C7: the sample one-endpoint locator round-trips, a created
locator verifies, and create fails on 9 endpoints. -/
theorem zt_locator_roundtrip_verify_create_witness :
    sampleLocator.endpoints.length ≤ 8 ∧
    ZT_Locator_unmarshal (ZT_Locator_marshal sampleLocator) = some sampleLocator ∧
    ZT_Locator_create sampleTimestamp [sampleEndpoint] sampleIdentityC25519 =
      some sampleCreatedLocator ∧
    ZT_Locator_verify sampleCreatedLocator sampleIdentityC25519 = true ∧
    ZT_Locator_create sampleTimestamp (List.replicate 9 ZT_Endpoint.nil)
      sampleIdentityC25519 = none := by
  refine ⟨by decide, ?_, rfl, ?_, ?_⟩
  · exact zt_locator_roundtrip_verify_create.1 sampleLocator (by decide)
  · exact zt_locator_roundtrip_verify_create.2.1 sampleTimestamp [sampleEndpoint]
      sampleIdentityC25519 sampleCreatedLocator rfl
  · exact zt_locator_roundtrip_verify_create.2.2 sampleTimestamp
      (List.replicate 9 ZT_Endpoint.nil) sampleIdentityC25519 (Or.inl (by decide))

/-- C8: the result-code classifier holds exactly on the fatal range
[100, 1000); OK and every code at or above 1000 (including all six
non-fatal error codes) are classified non-fatal, and the three fatal codes
100, 101 and 102 are classified fatal. -/
theorem zt_result_code_isFatal_spec :
    (∀ x : Int, ZT_ResultCode_isFatal x = true ↔ (100 ≤ x ∧ x < 1000)) ∧
    ZT_ResultCode_isFatal ZT_RESULT_OK = false ∧
    (∀ x : Int, 1000 ≤ x → ZT_ResultCode_isFatal x = false) ∧
    ZT_ResultCode_isFatal ZT_RESULT_ERROR_NETWORK_NOT_FOUND = false ∧
    ZT_ResultCode_isFatal ZT_RESULT_ERROR_UNSUPPORTED_OPERATION = false ∧
    ZT_ResultCode_isFatal ZT_RESULT_ERROR_BAD_PARAMETER = false ∧
    ZT_ResultCode_isFatal ZT_RESULT_ERROR_INVALID_CREDENTIAL = false ∧
    ZT_ResultCode_isFatal ZT_RESULT_ERROR_COLLIDING_OBJECT = false ∧
    ZT_ResultCode_isFatal ZT_RESULT_ERROR_INTERNAL = false ∧
    ZT_ResultCode_isFatal ZT_RESULT_FATAL_ERROR_OUT_OF_MEMORY = true ∧
    ZT_ResultCode_isFatal ZT_RESULT_FATAL_ERROR_DATA_STORE_FAILED = true ∧
    ZT_ResultCode_isFatal ZT_RESULT_FATAL_ERROR_INTERNAL = true := by
  refine ⟨?_, by decide, ?_, by decide, by decide, by decide, by decide, by decide,
    by decide, by decide, by decide, by decide⟩
  · intro x
    simp [ZT_ResultCode_isFatal]
  · intro x hx
    simp only [ZT_ResultCode_isFatal, Bool.and_eq_false_iff]
    right
    simp only [decide_eq_false_iff_not, not_lt]
    omega

/-- Witness for C8 at the concrete codes 500 (fatal range) and 1000. -/
theorem zt_result_code_isFatal_spec_witness :
    (ZT_ResultCode_isFatal 500 = true ↔ ((100 : Int) ≤ 500 ∧ (500 : Int) < 1000)) ∧
    (1000 : Int) ≤ 1000 ∧ ZT_ResultCode_isFatal 1000 = false :=
  ⟨zt_result_code_isFatal_spec.1 500, by omega,
   zt_result_code_isFatal_spec.2.2.1 1000 (by omega)⟩

/-- C9: the default UDP port is 9993, the minimum physical UDP MTU is 1400
and values below it are clipped up to it, and the default physical UDP
payload size excluding IP/UDP overhead is 1432 bytes. -/
theorem zt_wire_constants :
    ZT_DEFAULT_PORT = 9993 ∧ ZT_MIN_UDP_MTU = 1400 ∧ ZT_DEFAULT_UDP_MTU = 1432 ∧
    (∀ m : Nat, m < ZT_MIN_UDP_MTU → clipPhysMtu m = ZT_MIN_UDP_MTU) ∧
    (∀ m : Nat, ZT_MIN_UDP_MTU ≤ m → clipPhysMtu m = m) := by
  refine ⟨rfl, rfl, rfl, ?_, ?_⟩ <;>
    · intro m hm
      simp only [clipPhysMtu, ZT_MIN_UDP_MTU] at *
      omega

/-- Witness for C9: clipping at the concrete MTU values 100 and 1500. -/
theorem zt_wire_constants_witness :
    100 < ZT_MIN_UDP_MTU ∧ clipPhysMtu 100 = ZT_MIN_UDP_MTU ∧
    ZT_MIN_UDP_MTU ≤ 1500 ∧ clipPhysMtu 1500 = 1500 :=
  ⟨by decide, zt_wire_constants.2.2.2.1 100 (by decide),
   by decide, zt_wire_constants.2.2.2.2 1500 (by decide)⟩

/-- C10: joining a network the node is already a member of returns OK and
changes nothing: the node state is left as it was and no side effects (no
new membership, no configuration request) are produced. -/
theorem zt_node_join_idempotent (node : NodeState) (nwid : Nat)
    (fp : Option ZT_Fingerprint) (h : nodeHasNetwork node nwid = true) :
    ZT_Node_join node nwid fp = (ZT_RESULT_OK, node, []) := by
  simp [ZT_Node_join, h]

/-- Witness for C10: re-joining network 42 on the sample node that already
holds it. -/
theorem zt_node_join_idempotent_witness :
    nodeHasNetwork sampleNode 42 = true ∧
    ZT_Node_join sampleNode 42 none = (ZT_RESULT_OK, sampleNode, []) :=
  ⟨by decide, zt_node_join_idempotent sampleNode 42 none (by decide)⟩

end ZeroTier
